import Mathlib

/-!
Verification of the endpoint test orchestration and issue triage engine of
the dashboard repository: shallow embedding of the relevant parts of
scripts/analyze_results.py and scripts/enhanced_api_smoke_test.py, with
theorems settling the frozen claims about them.

Modelling conventions:
* Python strings are Lean `String`; `x in s` is substring containment,
  `s.lower()` maps `Char.toLower` over the characters (the data is ASCII).
* Python `None` is `Option.none`; an operation that raises on `None`
  (`None >= 500`, `None.lower()`) is modelled in `Except String`, the error
  string naming the Python exception type.
* Dates are day counts (`Nat`); `datetime.now()` is an explicit `today`
  parameter, `+ timedelta(days=d)` is `+ d`. Calendar formatting is out of
  scope of the claims.
* Python dicts that the code only builds and iterates are association lists
  in insertion order; a dict comprehension that writes one key twice keeps
  the last value, which the model reproduces.
* `list.sort` (Timsort) is stable; it is modelled by a stable insertion
  sort, which computes the same output list.
-/

namespace Dashboard

/-- Python str.lower, character by character (ASCII data). -/
def pyLower (s : String) : String := ⟨s.toList.map Char.toLower⟩

/-- Python str.upper, character by character (ASCII data). -/
def pyUpper (s : String) : String := ⟨s.toList.map Char.toUpper⟩

/-- The characters before the first occurrence of `c`. -/
def takeUntilChar (c : Char) : List Char → List Char
  | [] => []
  | d :: rest => if d = c then [] else d :: takeUntilChar c rest

/-- Python `s.split(c)[0]`: the prefix of `s` before the first `c`. -/
def splitHead (s : String) (c : Char) : String := ⟨takeUntilChar c s.toList⟩

/-- Substring containment on character lists: Python `pat in s`. -/
def listContains (pat : List Char) : List Char → Bool
  | [] => pat.isEmpty
  | c :: rest => pat.isPrefixOf (c :: rest) || listContains pat rest

/-- Python `pat in s` for strings. -/
def strIn (pat s : String) : Bool := listContains pat.toList s.toList

/-- Python str.startswith. -/
def pyStartsWith (s pat : String) : Bool := pat.toList.isPrefixOf s.toList

/-- Python `x.lower()` where `x` may be None (`result.get(key, default)` of a
key stored as null returns None): on None the attribute access raises
AttributeError, modelled as an error. -/
def pyLowerOpt : Option String → Except String String
  | none => .error "AttributeError"
  | some s => .ok (pyLower s)

/-- The TestResult dataclass of enhanced_api_smoke_test.py, which is also the
shape of each entry of the results list that analyze_results.py loads
(asdict round-trips every field, null for None). -/
structure TestResult where
  service : String
  endpoint : String
  method : String
  test_name : String
  status : String
  http_status : Option Int
  error_message : Option String
  elapsed_ms : Nat
  request_body : Option String
  response_body : Option String
  validation_results : List (String × Bool)
  safety_notes : Option String
deriving DecidableEq

/-- The Issue dataclass of analyze_results.py. `estimated_effort` is kept in
tenths of hours (base hours times ten, times 12/10 or 15/10 for the
multipliers) to avoid floating point; `due_date` is a day count. -/
structure Issue where
  id : String
  type : String
  service : String
  endpoint : String
  method : String
  severity : String
  description : String
  error_message : Option String
  http_status : Option Int
  file_location : String
  code_location : String
  suggested_fix : String
  priority_score : Int
  priority : String
  assignee : String
  estimated_effort : Nat
  due_date : Nat
deriving DecidableEq

/-- IssueAnalyzer.determine_severity. The Python first evaluates
`result.get('error_message', '').lower()` (AttributeError when the stored
value is None), then compares `result.get('http_status', 0)` with 500: in
Python 3 that comparison raises TypeError when the stored value is None. -/
def determine_severity (r : TestResult) : Except String String :=
  match pyLowerOpt r.error_message with
  | .error e => .error e
  | .ok error_message =>
    match r.http_status with
    | none => .error "TypeError"
    | some http_status =>
      .ok (if http_status ≥ 500 then "Critical"
        else if http_status ≥ 400 then "High"
        else if strIn "timeout" error_message then "Medium"
        else if strIn "connection" error_message then "High"
        else if r.status = "FAIL" then "Medium"
        else "Low")

/-- The service to file-location map of IssueAnalyzer.find_file_location. -/
def service_file_map : List (String × String) :=
  [("sabnzbd", "app/api/sabnzbd"), ("sonarr", "app/api/sonarr"),
   ("radarr", "app/api/radarr"), ("prowlarr", "app/api/prowlarr"),
   ("readarr", "app/api/readarr")]

/-- IssueAnalyzer.find_file_location. -/
def find_file_location (service endpoint : String) : String :=
  let endpoint_path := splitHead endpoint (Char.ofNat 63)
  let base_path := (service_file_map.lookup service).getD ""
  if base_path ≠ "" then
    if strIn "/queue/" endpoint_path then base_path ++ "/queue/route.ts"
    else if strIn "/history/" endpoint_path then base_path ++ "/history/route.ts"
    else if strIn "/system/" endpoint_path then base_path ++ "/system/status/route.ts"
    else base_path ++ "/route.ts"
  else "Unknown location"

/-- IssueAnalyzer.suggest_fix. Equality of a None http_status with 404 or
500 is False in Python (no exception), but the lowering of a None error
message raises AttributeError first, as in the source order. -/
def suggest_fix (r : TestResult) : Except String String :=
  match pyLowerOpt r.error_message with
  | .error e => .error e
  | .ok error_message =>
    .ok (if r.http_status == some 404 then
        "Check if endpoint exists and is properly routed in " ++
          find_file_location r.service r.endpoint
      else if r.http_status == some 500 then
        "Check server-side error logs and exception handling in " ++
          find_file_location r.service r.endpoint
      else if strIn "timeout" error_message then
        "Increase timeout or optimize endpoint performance in " ++
          find_file_location r.service r.endpoint
      else if strIn "connection" error_message then
        "Check " ++ r.service ++ " backend service connectivity and configuration"
      else if strIn "authentication" error_message then
        "Verify API key and authentication implementation in " ++
          find_file_location r.service r.endpoint
      else if strIn "validation" error_message then
        "Add proper input validation and error handling in " ++
          find_file_location r.service r.endpoint
      else
        "Review endpoint implementation and error handling in " ++
          find_file_location r.service r.endpoint)

/-- IssueAnalyzer.calculate_priority_score: severity base plus endpoint and
error keyword boosts, capped at 100. The service argument is unused, as in
the source. -/
def calculate_priority_score (service endpoint severity : String)
    (error_message : Option String) : Except String Int :=
  match pyLowerOpt error_message with
  | .error e => .error e
  | .ok em =>
    let base : Int :=
      if severity = "Critical" then 100 else if severity = "High" then 75
      else if severity = "Medium" then 50 else if severity = "Low" then 25 else 0
    let score := base
      + (if strIn "queue" (pyLower endpoint) then 20 else 0)
      + (if strIn "series" (pyLower endpoint) then 15 else 0)
      + (if strIn "history" (pyLower endpoint) then 10 else 0)
      + (if strIn "timeout" em then 10 else 0)
      + (if strIn "connection" em then 15 else 0)
    .ok (if score ≤ 100 then score else 100)

/-- IssueAnalyzer.score_to_priority. -/
def score_to_priority (score : Int) : String :=
  if score ≥ 80 then "P0 - Critical"
  else if score ≥ 60 then "P1 - High"
  else if score ≥ 40 then "P2 - Medium"
  else "P3 - Low"

/-- IssueAnalyzer.determine_assignee. -/
def determine_assignee (service severity : String) : String :=
  if service = "sabnzbd" then "Backend Team - SABnzbd Specialist"
  else if service = "sonarr" then "Backend Team - Sonarr Specialist"
  else if severity = "Critical" then "Senior Backend Developer"
  else if severity = "High" then "Backend Developer"
  else "Backend Team - General"

/-- IssueAnalyzer.estimate_effort, in tenths of hours: base times 12 for a
timeout, else times 15 for a connection error, else times 10. -/
def estimate_effort (severity : String) (error_message : Option String) :
    Except String Nat :=
  match pyLowerOpt error_message with
  | .error e => .error e
  | .ok em =>
    let base : Nat :=
      if severity = "Critical" then 8 else if severity = "High" then 4
      else if severity = "Medium" then 2 else if severity = "Low" then 1 else 2
    .ok (if strIn "timeout" em then base * 12
      else if strIn "connection" em then base * 15
      else base * 10)

/-- IssueAnalyzer.calculate_due_date: triage-time date plus the turnaround
days of the priority band, default 7. -/
def calculate_due_date (today : Nat) (priority : String) : Nat :=
  today + (if priority = "P0 - Critical" then 1
    else if priority = "P1 - High" then 3
    else if priority = "P2 - Medium" then 7
    else if priority = "P3 - Low" then 14
    else 7)

/-- Python f-string 03d formatting of the issue number. -/
def pad3 (n : Nat) : String :=
  if n < 10 then "00" ++ toString n
  else if n < 100 then "0" ++ toString n
  else toString n

/-- IssueAnalyzer.create_issue. -/
def create_issue (today : Nat) (r : TestResult) (issue_id : Nat) :
    Except String Issue :=
  match determine_severity r with
  | .error e => .error e
  | .ok severity =>
    let file_location := find_file_location r.service r.endpoint
    match suggest_fix r with
    | .error e => .error e
    | .ok suggested_fix =>
      match calculate_priority_score r.service r.endpoint severity r.error_message with
      | .error e => .error e
      | .ok priority_score =>
        let priority := score_to_priority priority_score
        match estimate_effort severity r.error_message with
        | .error e => .error e
        | .ok estimated_effort =>
          .ok { id := "ISSUE-" ++ pad3 issue_id
                type := "Failing Endpoint"
                service := r.service
                endpoint := r.endpoint
                method := r.method
                severity := severity
                description := "Endpoint " ++ r.endpoint ++ " failed with " ++
                  r.method ++ " method"
                error_message := r.error_message
                http_status := r.http_status
                file_location := file_location
                code_location := file_location ++ ":endpoint_handler"
                suggested_fix := suggested_fix
                priority_score := priority_score
                priority := priority
                assignee := determine_assignee r.service severity
                estimated_effort := estimated_effort
                due_date := calculate_due_date today priority }

/-- Stable insertion of one element into a list sorted descending by key:
on equal keys the inserted element (which comes earlier in the original
list) stays in front. -/
def insertDescBy {α : Type} (key : α → Int) (x : α) : List α → List α
  | [] => [x]
  | y :: ys => if key y > key x then y :: insertDescBy key x ys else x :: y :: ys

/-- Stable descending sort by key, the behaviour of Python
`list.sort(key=..., reverse=True)`. -/
def sortDescBy {α : Type} (key : α → Int) : List α → List α
  | [] => []
  | x :: xs => insertDescBy key x (sortDescBy key xs)

/-- IssueAnalyzer.prioritize_issues: stable sort of the issue list by
priority_score descending. -/
def prioritize_issues (issues : List Issue) : List Issue :=
  sortDescBy (fun i => i.priority_score) issues

/-- The loop of IssueAnalyzer.analyze_results: each FAIL result is turned
into an issue appended to the analyzer state, with sequential ids. -/
def analyzeLoop (today : Nat) :
    List TestResult → Nat → List Issue → Except String (List Issue)
  | [], _, issues => .ok issues
  | r :: rs, issue_id, issues =>
    if r.status = "FAIL" then
      match create_issue today r issue_id with
      | .error e => .error e
      | .ok issue => analyzeLoop today rs (issue_id + 1) (issues ++ [issue])
    else analyzeLoop today rs issue_id issues

/-- IssueAnalyzer.analyze_results. `issues0` is the analyzer state
(self.issues) before the call, the empty list for a fresh analyzer; the
method appends to it, sorts it and returns it, so the returned list is also
the state after the call. -/
def analyze_results (today : Nat) (results : List TestResult)
    (issues0 : List Issue) : Except String (List Issue) :=
  match analyzeLoop today results 1 issues0 with
  | .error e => .error e
  | .ok issues => .ok (prioritize_issues issues)

/-- Helper: the analyze_results loop with a non-empty starting state returns
the starting state prepended to what it returns from an empty state. -/
theorem analyzeLoop_acc (today : Nat) (rs : List TestResult) (n : Nat)
    (acc : List Issue) :
    analyzeLoop today rs n acc = (analyzeLoop today rs n []).map (acc ++ ·) := by
  induction rs generalizing n acc with
  | nil => simp [analyzeLoop, Except.map]
  | cons r rs ih =>
    by_cases hF : r.status = "FAIL"
    · cases h : create_issue today r n with
      | error e => simp [analyzeLoop, hF, h, Except.map]
      | ok issue =>
        simp only [analyzeLoop, hF, if_true, h]
        rw [ih (n + 1) (acc ++ [issue]), ih (n + 1) ([] ++ [issue])]
        cases analyzeLoop today rs (n + 1) [] with
        | error e => simp [Except.map]
        | ok l => simp [Except.map]
    · simp only [analyzeLoop, hF, if_false]
      exact ih n acc

/-- A FAIL outcome used for the concrete triage runs: HTTP 404 on the series
endpoint. -/
def exampleFail : TestResult :=
  { service := "sonarr", endpoint := "/api/sonarr/series", method := "GET",
    test_name := "Get Sonarr Series", status := "FAIL", http_status := some 404,
    error_message := some "Not Found", elapsed_ms := 3, request_body := none,
    response_body := none, validation_results := [], safety_notes := none }

/-- A placeholder issue value used only as the getD default below. -/
def fallbackIssue : Issue :=
  { id := "", type := "", service := "", endpoint := "", method := "",
    severity := "", description := "", error_message := none,
    http_status := none, file_location := "", code_location := "",
    suggested_fix := "", priority_score := 0, priority := "", assignee := "",
    estimated_effort := 0, due_date := 0 }

/-- The issue that triaging exampleFail creates. -/
def exampleIssue : Issue := (create_issue 0 exampleFail 1).toOption.getD fallbackIssue

/-- C5: the claim that invoking analyze_results twice on the same outcome
list yields identical issue lists is false: the method appends to the
analyzer state, so on a list with one FAIL outcome the first call returns
one issue and the second call, on the state the first left, returns two. -/
theorem analyze_results_not_idempotent :
    (Dashboard.analyze_results 0 [exampleFail] []).toOption.map List.length
        = some 1 ∧
    ((Dashboard.analyze_results 0 [exampleFail] []).bind fun out1 =>
        Dashboard.analyze_results 0 [exampleFail] out1).toOption.map List.length
        = some 2 ∧
    ((Dashboard.analyze_results 0 [exampleFail] []).bind fun out1 =>
        Dashboard.analyze_results 0 [exampleFail] out1).toOption
      ≠ (Dashboard.analyze_results 0 [exampleFail] []).toOption := by
  decide

/-- C5 (amended): analyze_results is deterministic, so a second run from a
fresh analyzer state returns the same list; but a second call on the same
analyzer returns the first list merged (by the stable descending sort) with
a fresh copy of the same issues, not the same list. -/
theorem analyze_results_second_call (today : Nat) (rs : List TestResult)
    (fresh out1 : List Issue)
    (h1 : analyzeLoop today rs 1 [] = .ok fresh)
    (h2 : Dashboard.analyze_results today rs [] = .ok out1) :
    Dashboard.analyze_results today rs out1
      = .ok (prioritize_issues (out1 ++ fresh)) := by
  unfold Dashboard.analyze_results
  rw [analyzeLoop_acc today rs 1 out1, h1]
  simp [Except.map]

/-- Witness for analyze_results_second_call at the one-FAIL-outcome input. -/
theorem analyze_results_second_call_witness :
    Dashboard.analyze_results 0 [exampleFail] [exampleIssue]
      = .ok (prioritize_issues ([exampleIssue] ++ [exampleIssue])) :=
  analyze_results_second_call 0 [exampleFail] [exampleIssue] [exampleIssue]
    rfl rfl

/-- Scenario A outcome: HTTP 500 on the sonarr queue endpoint. -/
def scenarioA : TestResult :=
  { service := "sonarr", endpoint := "/api/sonarr/queue/123", method := "GET",
    test_name := "Get Sonarr Queue Item", status := "FAIL",
    http_status := some 500, error_message := some "Internal Server Error",
    elapsed_ms := 12, request_body := none, response_body := none,
    validation_results := [], safety_notes := none }

/-- C4: triaging the Scenario A outcome (FAIL, HTTP 500, endpoint
/api/sonarr/queue/123, error Internal Server Error) yields an issue with
severity Critical, priority score 100 (100 base plus 20 for queue, capped),
priority band P0, and a due date of the triage-time date plus one day. -/
theorem create_issue_scenarioA (today : Nat) :
    (create_issue today scenarioA 1).map
        (fun i => (i.severity, i.priority_score, i.priority, i.due_date))
      = .ok ("Critical", 100, "P0 - Critical", today + 1) := rfl

/-- Witness for create_issue_scenarioA at triage date 0. -/
theorem create_issue_scenarioA_witness :
    (create_issue 0 scenarioA 1).map
        (fun i => (i.severity, i.priority_score, i.priority, i.due_date))
      = .ok ("Critical", 100, "P0 - Critical", 0 + 1) :=
  create_issue_scenarioA 0

/-- Scenario B outcome: a transport failure, so no HTTP status was recorded
(http_status is null) and the error message mentions a refused connection. -/
def scenarioB : TestResult :=
  { service := "radarr", endpoint := "/api/radarr/movies", method := "GET",
    test_name := "Get Radarr Movies", status := "FAIL", http_status := none,
    error_message := some "connection refused", elapsed_ms := 5,
    request_body := none, response_body := none, validation_results := [],
    safety_notes := none }

/-- C2: on the Scenario B outcome the severity derivation does not return
High (and no issue with score 90 is built): comparing the null http_status
with 500 raises TypeError in Python 3, so determine_severity and with it
create_issue fail instead of being well-defined. -/
theorem determine_severity_null_status_raises :
    determine_severity scenarioB = .error "TypeError"
      ∧ create_issue 0 scenarioB 1 = .error "TypeError" := ⟨rfl, rfl⟩

/-- Helper: on a FAIL outcome, a successfully derived severity is Critical,
High or Medium; the Low branch needs a non-FAIL status. -/
theorem severity_of_fail (r : TestResult) (s : String)
    (hFail : r.status = "FAIL") (h : determine_severity r = .ok s) :
    s = "Critical" ∨ s = "High" ∨ s = "Medium" := by
  unfold determine_severity at h
  cases hem : pyLowerOpt r.error_message with
  | error e =>
    simp only [hem] at h
    exact (Except.noConfusion h)
  | ok em =>
    simp only [hem] at h
    cases hhs : r.http_status with
    | none =>
      simp only [hhs] at h
      exact (Except.noConfusion h)
    | some hs =>
      simp only [hhs, Except.ok.injEq] at h
      subst h
      split_ifs <;> simp_all

/-- Helper: the severity field of a created issue is the derived severity of
its outcome. -/
theorem create_issue_severity (today : Nat) (r : TestResult) (n : Nat)
    (i : Issue) (h : create_issue today r n = .ok i) :
    determine_severity r = .ok i.severity := by
  cases hs : determine_severity r with
  | error e => simp [create_issue, hs] at h
  | ok sev =>
    cases hf : suggest_fix r with
    | error e => simp [create_issue, hs, hf] at h
    | ok fix =>
      cases hp : calculate_priority_score r.service r.endpoint sev r.error_message with
      | error e => simp [create_issue, hs, hf, hp] at h
      | ok score =>
        cases he : estimate_effort sev r.error_message with
        | error e => simp [create_issue, hs, hf, hp, he] at h
        | ok eff =>
          simp only [create_issue, hs, hf, hp, he, Except.ok.injEq] at h
          subst h
          rfl

/-- Helper: membership is preserved by the stable descending insertion. -/
theorem mem_insertDescBy {α : Type} (key : α → Int) (x a : α) (l : List α) :
    a ∈ insertDescBy key x l ↔ a = x ∨ a ∈ l := by
  induction l with
  | nil => simp [insertDescBy]
  | cons y ys ih =>
    unfold insertDescBy
    split
    · simp only [List.mem_cons, ih]
      tauto
    · simp only [List.mem_cons]

/-- Helper: the stable descending sort permutes membership. -/
theorem mem_sortDescBy {α : Type} (key : α → Int) (a : α) (l : List α) :
    a ∈ sortDescBy key l ↔ a ∈ l := by
  induction l with
  | nil => simp [sortDescBy]
  | cons x xs ih => simp [sortDescBy, mem_insertDescBy, ih]

/-- Helper: the analyze_results loop only adds issues whose severity is
Critical, High or Medium. -/
theorem analyzeLoop_severity (today : Nat) (rs : List TestResult) (n : Nat)
    (acc out : List Issue)
    (hacc : ∀ i ∈ acc,
      i.severity = "Critical" ∨ i.severity = "High" ∨ i.severity = "Medium")
    (h : analyzeLoop today rs n acc = .ok out) :
    ∀ i ∈ out,
      i.severity = "Critical" ∨ i.severity = "High" ∨ i.severity = "Medium" := by
  induction rs generalizing n acc with
  | nil =>
    simp only [analyzeLoop, Except.ok.injEq] at h
    subst h
    exact hacc
  | cons r rs ih =>
    by_cases hF : r.status = "FAIL"
    · cases hc : create_issue today r n with
      | error e => simp [analyzeLoop, hF, hc] at h
      | ok issue =>
        simp only [analyzeLoop, hF, if_true, hc] at h
        refine ih (n + 1) (acc ++ [issue]) ?_ h
        intro i hi
        rcases List.mem_append.mp hi with hi | hi
        · exact hacc i hi
        · have hone : i = issue := by simpa using hi
          subst hone
          exact severity_of_fail r i.severity hF
            (create_issue_severity today r n i hc)
    · simp only [analyzeLoop, hF, if_false] at h
      exact ih n acc hacc h

/-- C9: every issue the triage engine produces from a fresh analyzer has
severity Critical, High or Medium; the severity Low is never assigned,
because issues are created only from FAIL outcomes and the rules give any
remaining FAIL outcome Medium. -/
theorem triage_severity_never_low (today : Nat) (rs : List TestResult)
    (out : List Issue) (h : Dashboard.analyze_results today rs [] = .ok out) :
    ∀ i ∈ out,
      i.severity = "Critical" ∨ i.severity = "High" ∨ i.severity = "Medium" := by
  unfold Dashboard.analyze_results at h
  cases hl : analyzeLoop today rs 1 [] with
  | error e =>
    simp only [hl] at h
    exact (Except.noConfusion h)
  | ok issues =>
    simp only [hl, Except.ok.injEq] at h
    subst h
    intro i hi
    have hmem : i ∈ issues := by
      simpa [prioritize_issues, mem_sortDescBy] using hi
    exact analyzeLoop_severity today rs 1 [] issues (by simp) hl i hmem

/-- Witness for triage_severity_never_low on the example FAIL outcome. -/
theorem triage_severity_never_low_witness :
    exampleIssue.severity = "Critical" ∨ exampleIssue.severity = "High"
      ∨ exampleIssue.severity = "Medium" :=
  triage_severity_never_low 0 [exampleFail] [exampleIssue] rfl exampleIssue
    (List.Mem.head _)

/-- The EndpointConfig dataclass of enhanced_api_smoke_test.py, with the
fields the executor reads. The `tests` field is never read by run_test and
is omitted. Dict-valued fields are association lists in insertion order. -/
structure EndpointConfig where
  name : String
  path : String
  method : String
  description : String
  destructive : Bool := false
  safe_mode : String := "mock"
  path_params : Option (List (String × String)) := none
  query_params : Option (List (String × String)) := none
  headers : Option (List (String × String)) := none
  body : Option (List (String × String)) := none
  expected_status : Int := 200
deriving DecidableEq

/-- EnhancedAPITester.extract_service_from_path: the service is recognised
only as a path segment with a slash on both sides. -/
def extract_service_from_path (path : String) : String :=
  if strIn "/sabnzbd/" path then "sabnzbd"
  else if strIn "/sonarr/" path then "sonarr"
  else if strIn "/radarr/" path then "radarr"
  else if strIn "/prowlarr/" path then "prowlarr"
  else if strIn "/readarr/" path then "readarr"
  else if strIn "/readarr-audiobooks/" path then "readarr_audiobooks"
  else "unknown"

/-- Python str.replace on character lists: every non-overlapping occurrence
of the non-empty pattern is replaced, scanning left to right. The fuel is
structural and never runs out when it starts at the length of the scanned
list, since each step consumes at least one character. -/
def replaceFuel (pat repl : List Char) : Nat → List Char → List Char
  | _, [] => []
  | 0, s => s
  | fuel + 1, c :: rest =>
    if pat ≠ [] ∧ pat.isPrefixOf (c :: rest) then
      repl ++ replaceFuel pat repl fuel (rest.drop (pat.length - 1))
    else
      c :: replaceFuel pat repl fuel rest

/-- Python s.replace(pat, repl) for strings. -/
def pyReplace (s pat repl : String) : String :=
  ⟨replaceFuel pat.toList repl.toList s.toList.length s.toList⟩

/-- Braces as strings, for building the placeholder pattern of a path
parameter as the Python f-string does. -/
def braceL : String := "\x7b"

/-- Closing brace as a string. -/
def braceR : String := "\x7d"

/-- The path-parameter substitution loop of run_test: a value starting with
the test prefix is replaced by the id the fetcher returns for the service,
any other value is substituted literally. `idFetch` models
MediaIDFetcher.get_id_for_service, which always returns a string (a real id
or the static fallback). -/
def substitute_params (idFetch : String → String) (service : String) :
    List (String × String) → String → String
  | [], endpoint_path => endpoint_path
  | (key, value) :: rest, endpoint_path =>
    if pyStartsWith value "test_" then
      substitute_params idFetch service rest
        (pyReplace endpoint_path (braceL ++ key ++ braceR) (idFetch service))
    else
      substitute_params idFetch service rest
        (pyReplace endpoint_path (braceL ++ key ++ braceR) value)

/-- The uniform response dict of HTTPClient.request (headers omitted: the
executor never reads them). -/
structure HttpResponse where
  status_code : Option Int
  body : String
  elapsed_ms : Nat
  error : Option String
deriving DecidableEq

/-- Python truthiness of an optional string (None and the empty string are
falsy). -/
def pyTruthyStr : Option String → Bool
  | none => false
  | some s => !s.isEmpty

/-- Python truthiness of an optional dict (None and the empty dict are
falsy). -/
def pyTruthyDict : Option (List (String × String)) → Bool
  | none => false
  | some d => !d.isEmpty

/-- Join strings with a separator. -/
def joinSep (sep : String) : List String → String
  | [] => ""
  | [x] => x
  | x :: y :: rest => x ++ sep ++ joinSep sep (y :: rest)

/-- Python json.dumps of a flat string-valued dict, in insertion order. -/
def jsonDumps (d : List (String × String)) : String :=
  braceL ++
    joinSep ", " (d.map fun p => "\"" ++ p.1 ++ "\": \"" ++ p.2 ++ "\"") ++
  braceR

/-- The expectations run_test passes to ResponseValidator.validate (expected
status, JSON format, response time at most 10000 ms), evaluated in dict
insertion order. `jsonOk` models json.loads succeeding on a body. -/
def validate_response (jsonOk : String → Bool) (expected_status : Int)
    (resp : HttpResponse) : List (String × Bool) :=
  [("status_code", resp.status_code == some expected_status),
   ("json_format", jsonOk resp.body),
   ("response_time", decide (resp.elapsed_ms ≤ 10000))]

/-- The mock response body run_test synthesizes for a mocked destructive
operation. -/
def mockBody : String :=
  braceL ++ "\"message\": \"Destructive operation mocked for safety\"" ++ braceR

/-- EnhancedAPITester.run_test. `safe_mode` is the global flag, `idFetch`
the id fetcher, `http` the HTTP client (method, endpoint, query params,
json body to response), `jsonOk` the JSON well-formedness of a body, and
`elapsed` the wall-clock milliseconds the run took (time is external). -/
def run_test (safe_mode : Bool) (idFetch : String → String)
    (http : String → String → Option (List (String × String)) →
      Option (List (String × String)) → HttpResponse)
    (jsonOk : String → Bool) (elapsed : Nat) (config : EndpointConfig) :
    TestResult :=
  let service := extract_service_from_path config.path
  if safe_mode && config.destructive && (config.safe_mode == "mock") then
    { service := service, endpoint := config.path, method := config.method,
      test_name := config.name, status := "SKIPPED", http_status := some 200,
      error_message := none, elapsed_ms := elapsed,
      request_body :=
        if pyTruthyDict config.body then config.body.map jsonDumps else none,
      response_body := some mockBody, validation_results := [],
      safety_notes := some "Mocked in safe mode" }
  else if safe_mode && config.destructive && (config.safe_mode == "skip") then
    { service := service, endpoint := config.path, method := config.method,
      test_name := config.name, status := "SKIPPED", http_status := none,
      error_message := none, elapsed_ms := elapsed, request_body := none,
      response_body := none, validation_results := [],
      safety_notes := some "Skipped in safe mode" }
  else
    let endpoint_path :=
      substitute_params idFetch service (config.path_params.getD []) config.path
    let response := http config.method endpoint_path config.query_params config.body
    let validation_results := validate_response jsonOk config.expected_status response
    let failed := pyTruthyStr response.error
    let allOk := validation_results.all (fun p => p.2)
    { service := service, endpoint := endpoint_path, method := config.method,
      test_name := config.name,
      status := if failed then "FAIL" else if allOk then "PASS" else "FAIL",
      http_status := response.status_code,
      error_message :=
        if failed then response.error
        else if allOk then none else some "Validation failed",
      elapsed_ms := elapsed,
      request_body :=
        if pyTruthyDict config.body then config.body.map jsonDumps else none,
      response_body := some response.body,
      validation_results := validation_results, safety_notes := none }

/-- The path-to-index dict comprehension of run_all_tests,
`order = (config.path: i)`: for a repeated path the last index wins, as a
Python dict keeps the last write. -/
def order_index : List EndpointConfig → Nat → String → Option Nat
  | [], _, _ => none
  | c :: cs, i, p =>
    match order_index cs (i + 1) p with
    | some j => some j
    | none => if c.path = p then some i else none

/-- Stable insertion into a list sorted ascending by key: on equal keys the
element inserted (earlier in the original list) stays in front. -/
def insertAscBy {α : Type} (key : α → Nat) (x : α) : List α → List α
  | [] => [x]
  | y :: ys => if key y < key x then y :: insertAscBy key x ys else x :: y :: ys

/-- Stable ascending sort by key, the behaviour of Python list.sort. -/
def sortAscBy {α : Type} (key : α → Nat) : List α → List α
  | [] => []
  | x :: xs => insertAscBy key x (sortAscBy key xs)

/-- EnhancedAPITester.run_all_tests: `completion` is the catalog in the
order the concurrent workers complete (a permutation of `configs`); results
are appended in completion order, then re-sorted by
`order.get(r.endpoint, 10^9)` with a stable sort. Per-test elapsed times do
not affect any field the sort or the claims read and are taken as 0. -/
def run_all_tests (safe_mode : Bool) (idFetch : String → String)
    (http : String → String → Option (List (String × String)) →
      Option (List (String × String)) → HttpResponse)
    (jsonOk : String → Bool) (configs completion : List EndpointConfig) :
    List TestResult :=
  sortAscBy (fun r => (order_index configs 0 r.endpoint).getD 1000000000)
    (completion.map (run_test safe_mode idFetch http jsonOk 0))

/-- A stub HTTP client answering 200 with an empty JSON array body. -/
def httpStub : String → String → Option (List (String × String)) →
    Option (List (String × String)) → HttpResponse :=
  fun _ _ _ _ => { status_code := some 200, body := "[]", elapsed_ms := 1, error := none }

/-- A stub id fetcher returning a constant id. -/
def idStub : String → String := fun _ => "7"

/-- A stub JSON well-formedness check accepting every body. -/
def jsonOkStub : String → Bool := fun _ => true

/-- A plain GET case on path /x. -/
def cfgGetX : EndpointConfig :=
  { name := "get x", path := "/x", method := "GET", description := "" }

/-- A POST case sharing the path /x with cfgGetX. -/
def cfgPostX : EndpointConfig :=
  { name := "post x", path := "/x", method := "POST", description := "" }

/-- A GET case whose path has a placeholder substituted before the outcome
is recorded. -/
def cfgSubY : EndpointConfig :=
  { name := "get y", path := "/y/" ++ braceL ++ "id" ++ braceR, method := "GET",
    description := "", path_params := some [("id", "test_id_1")] }

/-- C1: run_all_tests does not restore the original catalog order. With two
cases sharing path /x, the path-to-index dict collapses them to one key, so
the stable sort keeps worker-completion order (here reversed). With a case
whose placeholder was substituted, the resolved endpoint /y/7 is not a key
of the dict at all, gets the default 10^9 and is sorted to the end even
when the workers complete in catalog order. -/
theorem run_all_tests_order_bug :
    run_all_tests true idStub httpStub jsonOkStub [cfgGetX, cfgPostX] [cfgPostX, cfgGetX]
      = [run_test true idStub httpStub jsonOkStub 0 cfgPostX,
         run_test true idStub httpStub jsonOkStub 0 cfgGetX]
    ∧ run_all_tests true idStub httpStub jsonOkStub [cfgGetX, cfgPostX] [cfgPostX, cfgGetX]
      ≠ [run_test true idStub httpStub jsonOkStub 0 cfgGetX,
         run_test true idStub httpStub jsonOkStub 0 cfgPostX]
    ∧ run_all_tests true idStub httpStub jsonOkStub [cfgSubY, cfgGetX] [cfgSubY, cfgGetX]
      = [run_test true idStub httpStub jsonOkStub 0 cfgGetX,
         run_test true idStub httpStub jsonOkStub 0 cfgSubY]
    ∧ run_all_tests true idStub httpStub jsonOkStub [cfgSubY, cfgGetX] [cfgSubY, cfgGetX]
      ≠ [run_test true idStub httpStub jsonOkStub 0 cfgSubY,
         run_test true idStub httpStub jsonOkStub 0 cfgGetX] := by
  decide

/-- C3: with global safe mode on, a destructive case with safety mode mock
performs no network call (the outcome is one fixed record, whatever the
HTTP client would answer): SKIPPED with mock HTTP status 200, the mock
response body and a safety note explaining the mock. -/
theorem run_test_mock_skipped (idFetch : String → String)
    (http : String → String → Option (List (String × String)) →
      Option (List (String × String)) → HttpResponse)
    (jsonOk : String → Bool) (elapsed : Nat) (config : EndpointConfig)
    (hd : config.destructive = true) (hm : config.safe_mode = "mock") :
    run_test true idFetch http jsonOk elapsed config =
      { service := extract_service_from_path config.path,
        endpoint := config.path, method := config.method,
        test_name := config.name, status := "SKIPPED",
        http_status := some 200, error_message := none, elapsed_ms := elapsed,
        request_body :=
          if pyTruthyDict config.body then config.body.map jsonDumps else none,
        response_body := some mockBody, validation_results := [],
        safety_notes := some "Mocked in safe mode" } := by
  simp [run_test, hd, hm]

/-- A destructive mock-mode case from the default catalog. -/
def cfgMock : EndpointConfig :=
  { name := "Delete SABnzbd Queue Item",
    path := "/api/sabnzbd/queue/" ++ braceL ++ "nzoId" ++ braceR,
    method := "DELETE", description := "Delete specific item from queue",
    destructive := true, safe_mode := "mock",
    path_params := some [("nzoId", "test_nzo_123")] }

/-- Witness for run_test_mock_skipped on a concrete destructive case. -/
theorem run_test_mock_skipped_witness :
    run_test true idStub httpStub jsonOkStub 4 cfgMock =
      { service := extract_service_from_path cfgMock.path,
        endpoint := cfgMock.path, method := cfgMock.method,
        test_name := cfgMock.name, status := "SKIPPED",
        http_status := some 200, error_message := none, elapsed_ms := 4,
        request_body :=
          if pyTruthyDict cfgMock.body then cfgMock.body.map jsonDumps else none,
        response_body := some mockBody, validation_results := [],
        safety_notes := some "Mocked in safe mode" } :=
  run_test_mock_skipped idStub httpStub jsonOkStub 4 cfgMock rfl rfl

/-- C7: with global safe mode on, a destructive case with safety mode skip
performs no network call and the outcome is SKIPPED with no HTTP status and
a safety note explaining the skip. -/
theorem run_test_skip_skipped (idFetch : String → String)
    (http : String → String → Option (List (String × String)) →
      Option (List (String × String)) → HttpResponse)
    (jsonOk : String → Bool) (elapsed : Nat) (config : EndpointConfig)
    (hd : config.destructive = true) (hm : config.safe_mode = "skip") :
    run_test true idFetch http jsonOk elapsed config =
      { service := extract_service_from_path config.path,
        endpoint := config.path, method := config.method,
        test_name := config.name, status := "SKIPPED", http_status := none,
        error_message := none, elapsed_ms := elapsed, request_body := none,
        response_body := none, validation_results := [],
        safety_notes := some "Skipped in safe mode" } := by
  simp [run_test, hd, hm]

/-- A destructive skip-mode case. -/
def cfgSkip : EndpointConfig :=
  { name := "Pause SABnzbd Queue", path := "/api/sabnzbd/queue/pause",
    method := "POST", description := "Pause the download queue",
    destructive := true, safe_mode := "skip" }

/-- Witness for run_test_skip_skipped on a concrete destructive case. -/
theorem run_test_skip_skipped_witness :
    run_test true idStub httpStub jsonOkStub 2 cfgSkip =
      { service := extract_service_from_path cfgSkip.path,
        endpoint := cfgSkip.path, method := cfgSkip.method,
        test_name := cfgSkip.name, status := "SKIPPED", http_status := none,
        error_message := none, elapsed_ms := 2, request_body := none,
        response_body := none, validation_results := [],
        safety_notes := some "Skipped in safe mode" } :=
  run_test_skip_skipped idStub httpStub jsonOkStub 2 cfgSkip rfl rfl

/-- The base-case paths of the built-in default catalog: each service has a
first entry whose path ends at the service name with no trailing slash
(get_default_endpoint_configs). -/
def default_base_paths : List String :=
  ["/api/sabnzbd", "/api/sonarr", "/api/radarr", "/api/prowlarr",
   "/api/readarr", "/api/readarr-audiobooks"]

/-- Helper: every branch of run_test records
extract_service_from_path of the configured path as the service. -/
theorem run_test_service (safe_mode : Bool) (idFetch : String → String)
    (http : String → String → Option (List (String × String)) →
      Option (List (String × String)) → HttpResponse)
    (jsonOk : String → Bool) (elapsed : Nat) (config : EndpointConfig) :
    (run_test safe_mode idFetch http jsonOk elapsed config).service
      = extract_service_from_path config.path := by
  unfold run_test
  split_ifs <;> rfl

/-- C10: the executor recognises a service only as a slash-delimited path
segment, so for every default-catalog base case, whose path ends at the
service name without a trailing slash, the recorded service is the literal
string unknown. -/
theorem run_test_base_path_service_unknown (safe_mode : Bool)
    (idFetch : String → String)
    (http : String → String → Option (List (String × String)) →
      Option (List (String × String)) → HttpResponse)
    (jsonOk : String → Bool) (elapsed : Nat) (config : EndpointConfig)
    (hp : config.path ∈ default_base_paths) :
    (run_test safe_mode idFetch http jsonOk elapsed config).service = "unknown" := by
  rw [run_test_service]
  simp only [default_base_paths, List.mem_cons, List.not_mem_nil, or_false] at hp
  rcases hp with h | h | h | h | h | h <;> rw [h] <;> rfl

/-- The default-catalog base case for sonarr. -/
def cfgSonarrBase : EndpointConfig :=
  { name := "Get Sonarr Base", path := "/api/sonarr", method := "GET",
    description := "Get Sonarr base information" }

/-- Witness for run_test_base_path_service_unknown on the sonarr base case. -/
theorem run_test_base_path_service_unknown_witness :
    (run_test true idStub httpStub jsonOkStub 0 cfgSonarrBase).service = "unknown" :=
  run_test_base_path_service_unknown true idStub httpStub jsonOkStub 0
    cfgSonarrBase (by decide)

/-- The slash-prefixed path patterns of
EnhancedOpenAPIFetcher._is_destructive_operation. -/
def destructive_patterns : List String :=
  ["/delete", "/remove", "/pause", "/resume", "/cancel", "/stop", "/kill",
   "/reset", "/clear"]

/-- The operation-id keywords of _is_destructive_operation: the path
keywords without the slash, plus disable and shutdown. -/
def destructive_keywords : List String :=
  ["delete", "remove", "pause", "resume", "cancel", "stop", "kill", "reset",
   "clear", "disable", "shutdown"]

/-- EnhancedOpenAPIFetcher._is_destructive_operation: DELETE method, a
slash-prefixed pattern in the lowered path, a keyword in the lowered
operation id (the empty string when the OpenAPI operation has none), or a
destructive, admin or system tag. The Python if-chain of boolean returns is
the boolean disjunction. -/
def is_destructive_operation (method path : String)
    (operation_id : Option String) (tags : List String) : Bool :=
  (pyLower method == "delete")
  || destructive_patterns.any (fun pat => strIn pat (pyLower path))
  || destructive_keywords.any (fun kw => strIn kw (pyLower (operation_id.getD "")))
  || tags.any (fun tag => (pyLower tag == "destructive")
      || (pyLower tag == "admin") || (pyLower tag == "system"))

/-- The destructive condition as the claim and spec word it: the path clause
uses the bare mutating keywords, without the leading slash the code
requires. Stated from the spec for comparison with
is_destructive_operation. -/
def spec_destructive_condition (method path : String)
    (operation_id : Option String) (tags : List String) : Bool :=
  (pyLower method == "delete")
  || (destructive_keywords.take 9).any (fun kw => strIn kw (pyLower path))
  || destructive_keywords.any (fun kw => strIn kw (pyLower (operation_id.getD "")))
  || tags.any (fun tag => (pyLower tag == "destructive")
      || (pyLower tag == "admin") || (pyLower tag == "system"))

/-- C6: the claimed condition and the classifier disagree: a GET operation
on path /undelete contains the keyword delete (so the claim says
destructive) but no slash-prefixed pattern, no operation id keyword and no
tag, so the code classifies it safe. -/
theorem is_destructive_differs_from_claim :
    is_destructive_operation "GET" "/undelete" none [] = false
      ∧ spec_destructive_condition "GET" "/undelete" none [] = true := by
  decide

/-- C6 (amended): the classifier returns true if and only if the method is
DELETE, the lowered path contains one of the slash-prefixed patterns, the
lowered operation id contains one of the keywords (with disable and
shutdown), or some tag is destructive, admin or system. -/
theorem is_destructive_operation_iff (method path : String)
    (operation_id : Option String) (tags : List String) :
    is_destructive_operation method path operation_id tags = true ↔
      (pyLower method = "delete"
        ∨ (∃ pat ∈ destructive_patterns, strIn pat (pyLower path) = true)
        ∨ (∃ kw ∈ destructive_keywords,
            strIn kw (pyLower (operation_id.getD "")) = true)
        ∨ (∃ tag ∈ tags, pyLower tag = "destructive" ∨ pyLower tag = "admin"
            ∨ pyLower tag = "system")) := by
  simp only [is_destructive_operation, Bool.or_eq_true, beq_iff_eq,
    List.any_eq_true, or_assoc]

/-- Witness for is_destructive_operation_iff: the Scenario D case, a
discovery-driven operation on path /series/(id) whose operation id contains
delete, is classified destructive. -/
theorem is_destructive_operation_iff_witness :
    is_destructive_operation "get"
      ("/series/" ++ braceL ++ "id" ++ braceR)
      (some "SonarrSeries_deleteSeriesById") [] = true :=
  (is_destructive_operation_iff "get" ("/series/" ++ braceL ++ "id" ++ braceR)
      (some "SonarrSeries_deleteSeriesById") []).mpr
    (Or.inr (Or.inr (Or.inl ⟨"delete", by decide, by decide⟩)))

/-- The header and body preparation of HTTPClient.request: the client
headers are extended with a JSON content type and the body is the
serialized json_data only when the upper-cased method is POST or PUT and
json_data is truthy (a non-empty dict); in every other case the headers are
unchanged and the body is the raw data parameter, which every caller in the
script leaves as None. -/
def request_prepare (headers : List (String × String)) (method : String)
    (data : Option String) (json_data : Option (List (String × String))) :
    List (String × String) × Option String :=
  if ((pyUpper method == "POST") || (pyUpper method == "PUT"))
      && pyTruthyDict json_data then
    (headers ++ [("Content-Type", "application/json")],
     some (jsonDumps (json_data.getD [])))
  else (headers, data)

/-- C8: a JSON body supplied to a DELETE request is dropped: no JSON
content-type header is added and no body is sent, refuting the claim that
the adapter serializes a supplied JSON body regardless of the HTTP method. -/
theorem request_prepare_delete_drops_body :
    request_prepare [("Accept", "application/json")] "DELETE" none
        (some [("id", "5")])
      = ([("Accept", "application/json")], none)
    ∧ ("Content-Type", "application/json")
        ∉ (request_prepare [("Accept", "application/json")] "DELETE" none
            (some [("id", "5")])).1
    ∧ (request_prepare [("Accept", "application/json")] "DELETE" none
        (some [("id", "5")])).2 = none := by
  decide

/-- C8 (amended): the adapter adds the JSON content type and sends the
serialized body exactly when the upper-cased method is POST or PUT and the
JSON body is truthy; otherwise headers are unchanged and the body is the
raw data parameter, None for every caller, so no body is sent. -/
theorem request_prepare_spec (headers : List (String × String))
    (method : String) (data : Option String)
    (json_data : Option (List (String × String))) :
    ((((pyUpper method == "POST") || (pyUpper method == "PUT"))
        && pyTruthyDict json_data) = true →
      request_prepare headers method data json_data
        = (headers ++ [("Content-Type", "application/json")],
           some (jsonDumps (json_data.getD []))))
    ∧ ((((pyUpper method == "POST") || (pyUpper method == "PUT"))
        && pyTruthyDict json_data) = false →
      request_prepare headers method data json_data = (headers, data)) := by
  constructor <;> intro h <;> simp [request_prepare, h]

/-- Witness for request_prepare_spec: a POST with a non-empty JSON body
gets the content type and the serialized body. -/
theorem request_prepare_spec_witness :
    request_prepare [] "post" none (some [("k", "v")])
      = ([] ++ [("Content-Type", "application/json")],
         some (jsonDumps ((some [("k", "v")]).getD []))) :=
  (request_prepare_spec [] "post" none (some [("k", "v")])).1 (by decide)

end Dashboard
